import Mathlib

/-!
# Verification of the bevy_video_glitch post-process plugin

Shallow embedding of `src/lib.rs` of the `bevy_video_glitch` crate.
The crate is a single-file Bevy plugin that inserts a full-screen
"video glitch" post-process pass into the 2D and 3D render graphs.

The embedding models:

* the `VideoGlitchSettings` component (floats as rationals, since only
  exact constants and identity data flow are at stake);
* the bind-group layout and render-pipeline descriptor built once in
  `VideoGlitchPipeline::from_world`;
* the per-frame `VideoGlitchNode::run` as a pure function from the
  relevant render-world resources and the view target to a result, a
  trace of render events (resource fetches, the double-buffer swap,
  bind-group creation, render pass, draw), and the updated view target;
* `VideoGlitchPlugin::build` / `finish` as pure functions on an app
  state with an optional render sub-app.
-/

/-! ## Settings record (`VideoGlitchSettings`, lib.rs lines 348-379) -/

/-- A 3-component float vector (glam `Vec3`), components as rationals. -/
structure Vec3 where
  x : ℚ
  y : ℚ
  z : ℚ
deriving DecidableEq

/-- A 2-component float vector (glam `Vec2`). -/
structure Vec2 where
  x : ℚ
  y : ℚ
deriving DecidableEq

/-- glam `Vec2::ZERO`. -/
def Vec2.ZERO : Vec2 := ⟨0, 0⟩

/-- A column-major 3x3 float matrix (glam `Mat3`). -/
structure Mat3 where
  x_axis : Vec3
  y_axis : Vec3
  z_axis : Vec3
deriving DecidableEq

/-- glam `Mat3::IDENTITY`. -/
def Mat3.IDENTITY : Mat3 :=
  { x_axis := ⟨1, 0, 0⟩, y_axis := ⟨0, 1, 0⟩, z_axis := ⟨0, 0, 1⟩ }

/-- The settings component passed to the shader (default build, without
the `webgl2` cargo feature, so no padding field is present). -/
structure VideoGlitchSettings where
  intensity : ℚ
  color_aberration : Mat3
deriving DecidableEq

/-- `impl Default for VideoGlitchSettings` (default build). -/
def VideoGlitchSettings.default : VideoGlitchSettings :=
  { intensity := 1
    color_aberration := Mat3.IDENTITY }

/-- The settings component as compiled with the `webgl2` cargo feature,
which adds the 16-byte-alignment padding field `webgl2_padding`. -/
structure VideoGlitchSettingsWebgl2 where
  intensity : ℚ
  color_aberration : Mat3
  webgl2_padding : Vec2
deriving DecidableEq

/-- `impl Default for VideoGlitchSettings` under the `webgl2` feature. -/
def VideoGlitchSettingsWebgl2.default : VideoGlitchSettingsWebgl2 :=
  { intensity := 1
    color_aberration := Mat3.IDENTITY
    webgl2_padding := Vec2.ZERO }

/-- The derived `ExtractComponent` impl for `VideoGlitchSettings`
(derive on lib.rs line 348, no filter and no transformation): the
component is cloned unchanged from the main world into the render
world. -/
def VideoGlitchSettings.extract_component (s : VideoGlitchSettings) :
    VideoGlitchSettings := s

/-- Modelled from the spec: the host `UniformComponentPlugin`
collaborator (registered on lib.rs line 60, its body is host-engine
code outside this repository) serializes the extracted component
unchanged into the per-entity uniform buffer; this module applies no
transformation of its own. -/
def VideoGlitchSettings.uniform_data (s : VideoGlitchSettings) :
    VideoGlitchSettings := s.extract_component

/-! ## Render-resource vocabulary (wgpu/bevy types used by lib.rs) -/

/-- Shader-stage visibility flags; the plugin only ever uses
`ShaderStages::FRAGMENT`. -/
inductive ShaderStages where
  | vertex
  | fragment
  | compute
  | vertex_fragment
deriving DecidableEq

/-- `TextureSampleType`. -/
inductive TextureSampleType where
  | float (filterable : Bool)
  | depth
  | sint
  | uint
deriving DecidableEq

/-- `SamplerBindingType`. -/
inductive SamplerBindingType where
  | filtering
  | nonFiltering
  | comparison
deriving DecidableEq

/-- The `ShaderType` whose `min_size` a `uniform_buffer::<T>` layout
entry is sized to. -/
inductive UniformSizedType where
  | videoGlitchSettings
  | globalsUniform
deriving DecidableEq

/-- The resource type of one bind-group-layout entry, as produced by the
`binding_types` helpers used on lib.rs lines 246-251. -/
inductive BindingLayoutType where
  | texture_2d (sample_type : TextureSampleType)
  | samplerBinding (ty : SamplerBindingType)
  | uniform_buffer (sized_to : UniformSizedType) (has_dynamic_offset : Bool)
deriving DecidableEq

/-- A single entry of a bind-group layout. -/
structure BindGroupLayoutEntry where
  binding : ℕ
  visibility : ShaderStages
  ty : BindingLayoutType
deriving DecidableEq

/-- `BindGroupLayoutEntries::sequential`: assigns binding indices
0, 1, 2, ... in order, all entries sharing one visibility. -/
def BindGroupLayoutEntries.sequential (visibility : ShaderStages)
    (tys : List BindingLayoutType) : List BindGroupLayoutEntry :=
  tys.enum.map fun p => { binding := p.1, visibility := visibility, ty := p.2 }

/-! ## Pipeline descriptor (`VideoGlitchPipeline::from_world`, lines 235-345) -/

/-- The weak shader handle `VIDEO_GLITCH_SHADER_HANDLE`
(lib.rs lines 36-37). -/
def VIDEO_GLITCH_SHADER_HANDLE : ℕ := 0x7b1d58197dc34e26b0c69a3c8091a014

/-- The vertex stage of a render pipeline.  The plugin only ever uses
the shared full-screen-triangle state `fullscreen_shader_vertex_state()`
from the host engine. -/
inductive VertexState where
  | fullscreen_triangle
deriving DecidableEq

/-- `TextureFormat`; the plugin only uses the host default format
`TextureFormat::bevy_default()`. -/
inductive TextureFormat where
  | bevyDefaultFormat
deriving DecidableEq

/-- `TextureFormat::bevy_default()` (host `BevyDefault` impl). -/
def TextureFormat.bevy_default : TextureFormat := .bevyDefaultFormat

/-- `BlendState` (never instantiated by this plugin: `blend: None`). -/
inductive BlendState where
  | mk
deriving DecidableEq

/-- Per-channel color write mask. -/
structure ColorWrites where
  red : Bool
  green : Bool
  blue : Bool
  alpha : Bool
deriving DecidableEq

/-- `ColorWrites::ALL`. -/
def ColorWrites.ALL : ColorWrites := ⟨true, true, true, true⟩

/-- `ColorTargetState`. -/
structure ColorTargetState where
  format : TextureFormat
  blend : Option BlendState
  write_mask : ColorWrites
deriving DecidableEq

/-- `FragmentState` of a render pipeline descriptor. -/
structure FragmentState where
  shader : ℕ
  shader_defs : List String
  entry_point : String
  targets : List (Option ColorTargetState)
deriving DecidableEq

/-- `PrimitiveTopology`. -/
inductive PrimitiveTopology where
  | pointList
  | lineList
  | lineStrip
  | triangleList
  | triangleStrip
deriving DecidableEq

/-- `Face`, for cull modes. -/
inductive Face where
  | front
  | back
deriving DecidableEq

/-- `PrimitiveState` (the fields this plugin leaves at their wgpu
defaults). -/
structure PrimitiveState where
  topology : PrimitiveTopology
  cull_mode : Option Face
deriving DecidableEq

/-- `PrimitiveState::default()`. -/
def PrimitiveState.wgpuDefault : PrimitiveState :=
  { topology := .triangleList, cull_mode := none }

/-- `DepthStencilState` (never instantiated: `depth_stencil: None`). -/
inductive DepthStencilState where
  | mk
deriving DecidableEq

/-- `MultisampleState`. -/
structure MultisampleState where
  count : ℕ
  mask : ℕ
  alpha_to_coverage_enabled : Bool
deriving DecidableEq

/-- `MultisampleState::default()`: one sample, all mask bits set, no
alpha-to-coverage. -/
def MultisampleState.wgpuDefault : MultisampleState :=
  { count := 1, mask := 2 ^ 64 - 1, alpha_to_coverage_enabled := false }

/-- `PushConstantRange` (never instantiated: empty vector). -/
inductive PushConstantRange where
  | mk
deriving DecidableEq

/-- `RenderPipelineDescriptor`. -/
structure RenderPipelineDescriptor where
  label : Option String
  layout : List (List BindGroupLayoutEntry)
  vertex : VertexState
  fragment : Option FragmentState
  primitive : PrimitiveState
  depth_stencil : Option DepthStencilState
  multisample : MultisampleState
  push_constant_ranges : List PushConstantRange
deriving DecidableEq

/-- The bind-group layout created on lib.rs lines 239-254: four
sequential fragment-stage entries — screen texture, sampler, settings
uniform, globals uniform. -/
def video_glitch_bind_group_layout : List BindGroupLayoutEntry :=
  BindGroupLayoutEntries.sequential ShaderStages.fragment
    [ .texture_2d (.float true),
      .samplerBinding .filtering,
      .uniform_buffer .videoGlitchSettings false,
      .uniform_buffer .globalsUniform false ]

/-- The render-pipeline descriptor queued on lib.rs lines 311-337. -/
def video_glitch_pipeline_descriptor : RenderPipelineDescriptor :=
  { label := some "video_glitch_pipeline"
    layout := [video_glitch_bind_group_layout]
    vertex := .fullscreen_triangle
    fragment := some
      { shader := VIDEO_GLITCH_SHADER_HANDLE
        shader_defs := []
        entry_point := "fragment"
        targets := [some
          { format := TextureFormat.bevy_default
            blend := none
            write_mask := ColorWrites.ALL }] }
    primitive := PrimitiveState.wgpuDefault
    depth_stencil := none
    multisample := MultisampleState.wgpuDefault
    push_constant_ranges := [] }

/-- The `VideoGlitchPipeline` resource: bind-group layout, the sampler
created from `SamplerDescriptor::default()` (carried as a unit token),
and the cached-pipeline id. -/
structure VideoGlitchPipeline where
  layout : List BindGroupLayoutEntry
  sampler : Unit
  pipeline_id : ℕ
deriving DecidableEq

/-- The pipeline cache, modelled as the list of queued descriptors; a
cached id is an index into this list. -/
abbrev PipelineCache := List RenderPipelineDescriptor

/-- `PipelineCache::queue_render_pipeline`: appends the descriptor and
returns its id. -/
def PipelineCache.queue_render_pipeline (cache : PipelineCache)
    (desc : RenderPipelineDescriptor) : ℕ × PipelineCache :=
  (cache.length, cache ++ [desc])

/-- `VideoGlitchPipeline::from_world` (lib.rs lines 235-345): builds
the layout and sampler and queues the one pipeline descriptor, storing
the returned id. -/
def VideoGlitchPipeline.from_world (cache : PipelineCache) :
    VideoGlitchPipeline × PipelineCache :=
  let layout := video_glitch_bind_group_layout
  let queued := cache.queue_render_pipeline video_glitch_pipeline_descriptor
  ({ layout := layout, sampler := (), pipeline_id := queued.1 }, queued.2)

/-! ## The view target and `post_process_write` -/

/-- The two halves of the view target's double-buffered main texture. -/
inductive TextureView where
  | main_texture_a
  | main_texture_b
deriving DecidableEq

/-- `ViewTarget`: which half of the double buffer is the current main
texture. -/
structure ViewTarget where
  main_is_a : Bool
deriving DecidableEq

/-- The source/destination pair returned by `post_process_write`. -/
structure PostProcessWrite where
  source : TextureView
  destination : TextureView
deriving DecidableEq

/-- `ViewTarget::post_process_write` (host engine): returns the current
main texture as `source` and the other half as `destination`, and flips
the view target's notion of the current main texture. -/
def ViewTarget.post_process_write (vt : ViewTarget) :
    PostProcessWrite × ViewTarget :=
  if vt.main_is_a then
    ({ source := .main_texture_a, destination := .main_texture_b }, ⟨false⟩)
  else
    ({ source := .main_texture_b, destination := .main_texture_a }, ⟨true⟩)

/-! ## The frame execution node (`VideoGlitchNode::run`, lines 138-224) -/

/-- One resource reference supplied to `create_bind_group` via
`BindGroupEntries::sequential` (lib.rs lines 191-199). -/
inductive BindGroupEntryRes where
  | textureView (v : TextureView)
  | samplerRes
  | settingsBinding
  | globalsBinding
deriving DecidableEq

/-- An observable render event of one node execution, in program
order. -/
inductive RenderEvent where
  | getRenderPipeline (id : ℕ) (found : Bool)
  | getSettingsBinding (found : Bool)
  | getGlobalsBinding (found : Bool)
  | postProcessWrite (source destination : TextureView)
  | createBindGroup (label : String) (layout : List BindGroupLayoutEntry)
      (entries : List BindGroupEntryRes)
  | beginRenderPass (label : Option String)
      (color_attachment_views : List TextureView)
      (has_depth_stencil : Bool)
  | setRenderPipeline
  | setBindGroup (index : ℕ)
  | draw (vertex_start vertex_end instance_start instance_end : ℕ)
  | queueRenderPipeline (desc : RenderPipelineDescriptor)
deriving DecidableEq

/-- `NodeRunError` (host engine error type; this plugin never
constructs any of its variants). -/
inductive NodeRunError where
  | inputSlotError
  | outputSlotError
  | runSubGraphError
deriving DecidableEq

/-- The render-world resources `VideoGlitchNode::run` reads: the
`VideoGlitchPipeline` resource, the pipeline cache's compiled-pipeline
lookup, and the availability of the settings and globals uniform
bindings. -/
structure RenderWorld where
  video_glitch_pipeline : VideoGlitchPipeline
  pipeline_cache_compiled : ℕ → Bool
  settings_binding_available : Bool
  globals_binding_available : Bool

def RenderEvent.isCreateBindGroup : RenderEvent → Bool
  | .createBindGroup _ _ _ => true
  | _ => false

def RenderEvent.isBeginRenderPass : RenderEvent → Bool
  | .beginRenderPass _ _ _ => true
  | _ => false

def RenderEvent.isDraw : RenderEvent → Bool
  | .draw _ _ _ _ => true
  | _ => false

def RenderEvent.isPostProcessWrite : RenderEvent → Bool
  | .postProcessWrite _ _ => true
  | _ => false

def RenderEvent.isQueueRenderPipeline : RenderEvent → Bool
  | .queueRenderPipeline _ => true
  | _ => false

/-- `VideoGlitchNode::run` (lib.rs lines 138-224), as a pure function
from the render world and the view target to the returned result, the
trace of render events issued, and the view target after the run. -/
def VideoGlitchNode.run (w : RenderWorld) (view_target : ViewTarget) :
    Except NodeRunError Unit × List RenderEvent × ViewTarget :=
  let pl := w.video_glitch_pipeline
  let pipeline_found := w.pipeline_cache_compiled pl.pipeline_id
  let ev1 := [RenderEvent.getRenderPipeline pl.pipeline_id pipeline_found]
  if pipeline_found = false then (Except.ok (), ev1, view_target)
  else
    let ev2 := ev1 ++ [RenderEvent.getSettingsBinding w.settings_binding_available]
    if w.settings_binding_available = false then (Except.ok (), ev2, view_target)
    else
      let ev3 := ev2 ++ [RenderEvent.getGlobalsBinding w.globals_binding_available]
      if w.globals_binding_available = false then (Except.ok (), ev3, view_target)
      else
        let pp := view_target.post_process_write
        let post_process := pp.1
        let view_target' := pp.2
        let ev4 := ev3 ++
          [RenderEvent.postProcessWrite post_process.source post_process.destination]
        let ev5 := ev4 ++
          [RenderEvent.createBindGroup "video_glitch_bind_group" pl.layout
            [ .textureView post_process.source,
              .samplerRes,
              .settingsBinding,
              .globalsBinding ]]
        let ev6 := ev5 ++
          [RenderEvent.beginRenderPass (some "video_glitch_pass")
            [post_process.destination] false]
        let ev7 := ev6 ++
          [RenderEvent.setRenderPipeline,
           RenderEvent.setBindGroup 0,
           RenderEvent.draw 0 3 0 1]
        (Except.ok (), ev7, view_target')

/-! ## Plugin registration (`VideoGlitchPlugin::build` / `finish`) -/

/-- The two render graphs the node is registered in. -/
inductive RenderGraphName where
  | core3d
  | core2d
deriving DecidableEq

/-- The render labels appearing in the plugin's edge declarations. -/
inductive GraphNodeLabel where
  | node3dTonemapping
  | node3dEndMainPassPostProcessing
  | node2dEndMainPass
  | node2dTonemapping
  | videoGlitchLabel
deriving DecidableEq

/-- The render sub-app state the plugin mutates: registered graph
nodes, declared ordering edges `(graph, before, after)`, and whether
the `VideoGlitchPipeline` resource has been initialized. -/
structure RenderAppState where
  graph_nodes : List (RenderGraphName × GraphNodeLabel)
  graph_edges : List (RenderGraphName × GraphNodeLabel × GraphNodeLabel)
  pipeline_initialized : Bool
deriving DecidableEq

/-- `RenderGraphApp::add_render_graph_node`. -/
def RenderAppState.add_render_graph_node (ra : RenderAppState)
    (g : RenderGraphName) (l : GraphNodeLabel) : RenderAppState :=
  { ra with graph_nodes := ra.graph_nodes ++ [(g, l)] }

/-- `RenderGraphApp::add_render_graph_edges` with a three-label tuple
`(a, b, c)`: declares the edges a-before-b and b-before-c. -/
def RenderAppState.add_render_graph_edges3 (ra : RenderAppState)
    (g : RenderGraphName) (a b c : GraphNodeLabel) : RenderAppState :=
  { ra with graph_edges := ra.graph_edges ++ [(g, a, b), (g, b, c)] }

/-- The main-app state the plugin mutates: loaded internal assets,
registered reflection types, and added plugins. -/
structure MainApp where
  assets_loaded : List ℕ
  registered_types : List String
  plugins : List String
deriving DecidableEq

/-- An app with its optional render sub-app
(`app.get_sub_app_mut(RenderApp)`). -/
structure App where
  main : MainApp
  render_app : Option RenderAppState

/-- `VideoGlitchPlugin::build` (lib.rs lines 42-103): loads the shader
asset, registers the settings type and the extraction/uniform plugins
on the main app; when the render sub-app exists, registers the node in
both graphs and declares the ordering edges. -/
def VideoGlitchPlugin.build (app : App) : App :=
  let main' :=
    { app.main with
      assets_loaded := app.main.assets_loaded ++ [VIDEO_GLITCH_SHADER_HANDLE]
      registered_types := app.main.registered_types ++ ["VideoGlitchSettings"]
      plugins := app.main.plugins ++
        [ "ExtractComponentPlugin<VideoGlitchSettings>",
          "UniformComponentPlugin<VideoGlitchSettings>" ] }
  match app.render_app with
  | none => { app with main := main' }
  | some render_app =>
      let ra :=
        ((((render_app.add_render_graph_node .core3d .videoGlitchLabel
          ).add_render_graph_edges3 .core3d
              .node3dTonemapping .videoGlitchLabel .node3dEndMainPassPostProcessing
          ).add_render_graph_node .core2d .videoGlitchLabel
          ).add_render_graph_edges3 .core2d
              .node2dEndMainPass .videoGlitchLabel .node2dTonemapping)
      { main := main', render_app := some ra }

/-- `VideoGlitchPlugin::finish` (lib.rs lines 105-114): initializes the
`VideoGlitchPipeline` resource when the render sub-app exists, returns
early otherwise. -/
def VideoGlitchPlugin.finish (app : App) : App :=
  match app.render_app with
  | none => app
  | some render_app =>
      { app with render_app := some { render_app with pipeline_initialized := true } }

/-! ## Sample inputs used to instantiate the theorems -/

/-- A render world in which all three resources are available. -/
def sampleAllReady : RenderWorld :=
  { video_glitch_pipeline :=
      { layout := video_glitch_bind_group_layout, sampler := (), pipeline_id := 0 }
    pipeline_cache_compiled := fun _ => true
    settings_binding_available := true
    globals_binding_available := true }

/-- A render world whose pipeline has not been compiled yet. -/
def sampleNoPipeline : RenderWorld :=
  { sampleAllReady with pipeline_cache_compiled := fun _ => false }

/-- A render world with a compiled pipeline but no settings binding. -/
def sampleNoSettings : RenderWorld :=
  { sampleAllReady with settings_binding_available := false }

/-- A render world with a compiled pipeline and settings binding but no
globals binding. -/
def sampleNoGlobals : RenderWorld :=
  { sampleAllReady with globals_binding_available := false }

/-- An app whose render sub-app is present and empty. -/
def sampleAppWithRender : App :=
  { main := { assets_loaded := [], registered_types := [], plugins := [] }
    render_app := some { graph_nodes := [], graph_edges := [], pipeline_initialized := false } }

/-- An app with no render sub-app. -/
def sampleAppNoRender : App :=
  { main := { assets_loaded := [], registered_types := [], plugins := [] }
    render_app := none }

/-! ## Theorems -/

/-- C9: for every availability combination of the cached pipeline, the
settings binding, and the globals binding, `VideoGlitchNode::run`
returns `Ok(())`; no path constructs a `NodeRunError`. -/
theorem videoGlitchNode_run_always_ok (w : RenderWorld) (vt : ViewTarget) :
    (VideoGlitchNode.run w vt).1 = Except.ok () := by
  unfold VideoGlitchNode.run
  dsimp only
  split
  · rfl
  · split
    · rfl
    · split
      · rfl
      · rfl

/-- C2: when the pipeline-cache lookup finds no compiled pipeline,
`VideoGlitchNode::run` returns `Ok` having issued only that lookup: no
bind group, no render pass, no draw, no `post_process_write`, and the
view target is returned unchanged. -/
theorem videoGlitchNode_run_pipeline_missing (w : RenderWorld) (vt : ViewTarget)
    (h : w.pipeline_cache_compiled w.video_glitch_pipeline.pipeline_id = false) :
    VideoGlitchNode.run w vt =
      (Except.ok (),
       [RenderEvent.getRenderPipeline w.video_glitch_pipeline.pipeline_id false],
       vt) := by
  unfold VideoGlitchNode.run
  simp [h]

/-- Witness for C2 at a concrete world with an uncompiled pipeline. -/
theorem videoGlitchNode_run_pipeline_missing_witness :
    VideoGlitchNode.run sampleNoPipeline ⟨true⟩ =
      (Except.ok (), [RenderEvent.getRenderPipeline 0 false], ⟨true⟩) :=
  videoGlitchNode_run_pipeline_missing sampleNoPipeline ⟨true⟩ rfl

/-- C1: when the cached pipeline, the settings binding, and the globals
binding are all available, one run issues exactly one bind-group
creation, exactly one render pass whose sole color attachment is the
post-process destination view, and exactly one draw over vertices 0..3
and instances 0..1. -/
theorem videoGlitchNode_run_single_draw (w : RenderWorld) (vt : ViewTarget)
    (hp : w.pipeline_cache_compiled w.video_glitch_pipeline.pipeline_id = true)
    (hs : w.settings_binding_available = true)
    (hg : w.globals_binding_available = true) :
    ((VideoGlitchNode.run w vt).2.1.countP RenderEvent.isCreateBindGroup = 1) ∧
    ((VideoGlitchNode.run w vt).2.1.countP RenderEvent.isBeginRenderPass = 1) ∧
    ((VideoGlitchNode.run w vt).2.1.countP RenderEvent.isDraw = 1) ∧
    (RenderEvent.beginRenderPass (some "video_glitch_pass")
        [(vt.post_process_write).1.destination] false ∈ (VideoGlitchNode.run w vt).2.1) ∧
    (RenderEvent.draw 0 3 0 1 ∈ (VideoGlitchNode.run w vt).2.1) := by
  rcases vt with ⟨ma⟩
  cases ma <;>
    simp [VideoGlitchNode.run, ViewTarget.post_process_write, hp, hs, hg,
      List.countP_cons, RenderEvent.isCreateBindGroup, RenderEvent.isBeginRenderPass,
      RenderEvent.isDraw]

/-- Witness for C1 at a concrete fully-ready world. -/
theorem videoGlitchNode_run_single_draw_witness :
    RenderEvent.draw 0 3 0 1 ∈ (VideoGlitchNode.run sampleAllReady ⟨true⟩).2.1 :=
  (videoGlitchNode_run_single_draw sampleAllReady ⟨true⟩ rfl rfl rfl).2.2.2.2

/-- C3: the availability checks happen in the order pipeline, settings
binding, globals binding, each missing resource ending the run at once;
`post_process_write` appears exactly once, after all three checks have
succeeded, and never when one fails.  The trace is characterized in
full for each of the four outcomes. -/
theorem videoGlitchNode_run_check_order (w : RenderWorld) (vt : ViewTarget) :
    (w.pipeline_cache_compiled w.video_glitch_pipeline.pipeline_id = false →
      (VideoGlitchNode.run w vt).2.1 =
        [RenderEvent.getRenderPipeline w.video_glitch_pipeline.pipeline_id false]) ∧
    (w.pipeline_cache_compiled w.video_glitch_pipeline.pipeline_id = true →
      w.settings_binding_available = false →
      (VideoGlitchNode.run w vt).2.1 =
        [RenderEvent.getRenderPipeline w.video_glitch_pipeline.pipeline_id true,
         RenderEvent.getSettingsBinding false]) ∧
    (w.pipeline_cache_compiled w.video_glitch_pipeline.pipeline_id = true →
      w.settings_binding_available = true →
      w.globals_binding_available = false →
      (VideoGlitchNode.run w vt).2.1 =
        [RenderEvent.getRenderPipeline w.video_glitch_pipeline.pipeline_id true,
         RenderEvent.getSettingsBinding true,
         RenderEvent.getGlobalsBinding false]) ∧
    (w.pipeline_cache_compiled w.video_glitch_pipeline.pipeline_id = true →
      w.settings_binding_available = true →
      w.globals_binding_available = true →
      (VideoGlitchNode.run w vt).2.1 =
        [RenderEvent.getRenderPipeline w.video_glitch_pipeline.pipeline_id true,
         RenderEvent.getSettingsBinding true,
         RenderEvent.getGlobalsBinding true,
         RenderEvent.postProcessWrite (vt.post_process_write).1.source
           (vt.post_process_write).1.destination,
         RenderEvent.createBindGroup "video_glitch_bind_group"
           w.video_glitch_pipeline.layout
           [ .textureView (vt.post_process_write).1.source,
             .samplerRes, .settingsBinding, .globalsBinding ],
         RenderEvent.beginRenderPass (some "video_glitch_pass")
           [(vt.post_process_write).1.destination] false,
         RenderEvent.setRenderPipeline,
         RenderEvent.setBindGroup 0,
         RenderEvent.draw 0 3 0 1]) := by
  refine ⟨fun hp => ?_, fun hp hs => ?_, fun hp hs hg => ?_, fun hp hs hg => ?_⟩
  · unfold VideoGlitchNode.run
    simp [hp]
  · unfold VideoGlitchNode.run
    simp [hp, hs]
  · unfold VideoGlitchNode.run
    simp [hp, hs, hg]
  · unfold VideoGlitchNode.run
    simp [hp, hs, hg]

/-- Witness for C3: the full trace at a concrete fully-ready world. -/
theorem videoGlitchNode_run_check_order_witness :
    (VideoGlitchNode.run sampleAllReady ⟨true⟩).2.1 =
      [RenderEvent.getRenderPipeline 0 true,
       RenderEvent.getSettingsBinding true,
       RenderEvent.getGlobalsBinding true,
       RenderEvent.postProcessWrite .main_texture_a .main_texture_b,
       RenderEvent.createBindGroup "video_glitch_bind_group"
         video_glitch_bind_group_layout
         [ .textureView .main_texture_a, .samplerRes, .settingsBinding, .globalsBinding ],
       RenderEvent.beginRenderPass (some "video_glitch_pass") [.main_texture_b] false,
       RenderEvent.setRenderPipeline,
       RenderEvent.setBindGroup 0,
       RenderEvent.draw 0 3 0 1] :=
  (videoGlitchNode_run_check_order sampleAllReady ⟨true⟩).2.2.2 rfl rfl rfl

/-- C4: the default settings have intensity 1.0 and the identity
aberration matrix, in both feature configurations; under the `webgl2`
feature the padding defaults to the zero vector. -/
theorem videoGlitchSettings_default_values :
    VideoGlitchSettings.default.intensity = 1 ∧
    VideoGlitchSettings.default.color_aberration = Mat3.IDENTITY ∧
    VideoGlitchSettingsWebgl2.default.intensity = 1 ∧
    VideoGlitchSettingsWebgl2.default.color_aberration = Mat3.IDENTITY ∧
    VideoGlitchSettingsWebgl2.default.webgl2_padding = Vec2.ZERO :=
  ⟨rfl, rfl, rfl, rfl, rfl⟩

/-- C5: for every settings value — any intensity, inside or outside
[0, 1], and any aberration matrix — the extraction step and the uniform
upload forward the value unchanged; no operation of this module clamps,
normalizes or rejects it. -/
theorem videoGlitchSettings_no_clamping (s : VideoGlitchSettings) :
    s.extract_component = s ∧
    s.uniform_data = s ∧
    s.uniform_data.intensity = s.intensity ∧
    s.uniform_data.color_aberration = s.color_aberration :=
  ⟨rfl, rfl, rfl, rfl⟩

/-- C6: `build` registers the node in both graphs and declares exactly
the asymmetric edges: Tonemapping before the node before
EndMainPassPostProcessing in the 3D graph, and EndMainPass before the
node before Tonemapping in the 2D graph. -/
theorem videoGlitchPlugin_build_graph_edges (app : App) (ra : RenderAppState)
    (h : app.render_app = some ra) :
    (VideoGlitchPlugin.build app).render_app = some
      { ra with
        graph_nodes := ra.graph_nodes ++
          [(.core3d, .videoGlitchLabel), (.core2d, .videoGlitchLabel)]
        graph_edges := ra.graph_edges ++
          [(.core3d, .node3dTonemapping, .videoGlitchLabel),
           (.core3d, .videoGlitchLabel, .node3dEndMainPassPostProcessing),
           (.core2d, .node2dEndMainPass, .videoGlitchLabel),
           (.core2d, .videoGlitchLabel, .node2dTonemapping)] } := by
  unfold VideoGlitchPlugin.build
  rw [h]
  simp [RenderAppState.add_render_graph_node, RenderAppState.add_render_graph_edges3]

/-- Witness for C6 at a concrete app with an empty render sub-app. -/
theorem videoGlitchPlugin_build_graph_edges_witness :
    (VideoGlitchPlugin.build sampleAppWithRender).render_app = some
      { graph_nodes := [(.core3d, .videoGlitchLabel), (.core2d, .videoGlitchLabel)]
        graph_edges :=
          [(.core3d, .node3dTonemapping, .videoGlitchLabel),
           (.core3d, .videoGlitchLabel, .node3dEndMainPassPostProcessing),
           (.core2d, .node2dEndMainPass, .videoGlitchLabel),
           (.core2d, .videoGlitchLabel, .node2dTonemapping)]
        pipeline_initialized := false } :=
  videoGlitchPlugin_build_graph_edges sampleAppWithRender
    { graph_nodes := [], graph_edges := [], pipeline_initialized := false } rfl

/-- C7: the bind-group layout has exactly four sequential fragment-only
bindings — filterable-float 2D texture, filtering sampler, uniform
buffer sized to `VideoGlitchSettings`, uniform buffer sized to
`GlobalsUniform` — and the transient bind group built during a
fully-ready run supplies entries in the fixed order source view,
sampler, settings binding, globals binding. -/
theorem videoGlitch_bind_group_contract (cache : PipelineCache)
    (w : RenderWorld) (vt : ViewTarget)
    (hp : w.pipeline_cache_compiled w.video_glitch_pipeline.pipeline_id = true)
    (hs : w.settings_binding_available = true)
    (hg : w.globals_binding_available = true) :
    (VideoGlitchPipeline.from_world cache).1.layout =
      [ { binding := 0, visibility := .fragment, ty := .texture_2d (.float true) },
        { binding := 1, visibility := .fragment, ty := .samplerBinding .filtering },
        { binding := 2, visibility := .fragment,
          ty := .uniform_buffer .videoGlitchSettings false },
        { binding := 3, visibility := .fragment,
          ty := .uniform_buffer .globalsUniform false } ] ∧
    RenderEvent.createBindGroup "video_glitch_bind_group"
        w.video_glitch_pipeline.layout
        [ .textureView (vt.post_process_write).1.source,
          .samplerRes, .settingsBinding, .globalsBinding ]
      ∈ (VideoGlitchNode.run w vt).2.1 := by
  constructor
  · rfl
  · unfold VideoGlitchNode.run
    simp [hp, hs, hg]

/-- Witness for C7 at a concrete fully-ready world. -/
theorem videoGlitch_bind_group_contract_witness :
    (VideoGlitchPipeline.from_world []).1.layout =
      [ { binding := 0, visibility := .fragment, ty := .texture_2d (.float true) },
        { binding := 1, visibility := .fragment, ty := .samplerBinding .filtering },
        { binding := 2, visibility := .fragment,
          ty := .uniform_buffer .videoGlitchSettings false },
        { binding := 3, visibility := .fragment,
          ty := .uniform_buffer .globalsUniform false } ] ∧
    RenderEvent.createBindGroup "video_glitch_bind_group"
        video_glitch_bind_group_layout
        [ .textureView .main_texture_a,
          .samplerRes, .settingsBinding, .globalsBinding ]
      ∈ (VideoGlitchNode.run sampleAllReady ⟨true⟩).2.1 :=
  videoGlitch_bind_group_contract [] sampleAllReady ⟨true⟩ rfl rfl rfl

/-- C8: `from_world` queues exactly one pipeline descriptor — shared
full-screen-triangle vertex stage, fragment entry point "fragment",
one color target in the host default format with no blending, no
depth/stencil, default multisample state, no push constants, and the
one bind-group layout — storing the returned cache id; the per-frame
node only looks the pipeline up by that stored id and never queues a
pipeline itself. -/
theorem videoGlitch_pipeline_descriptor_spec (cache : PipelineCache) :
    (VideoGlitchPipeline.from_world cache).2 =
      cache ++ [video_glitch_pipeline_descriptor] ∧
    (VideoGlitchPipeline.from_world cache).1.pipeline_id = cache.length ∧
    video_glitch_pipeline_descriptor.label = some "video_glitch_pipeline" ∧
    video_glitch_pipeline_descriptor.layout = [video_glitch_bind_group_layout] ∧
    video_glitch_pipeline_descriptor.vertex = VertexState.fullscreen_triangle ∧
    video_glitch_pipeline_descriptor.fragment = some
      { shader := VIDEO_GLITCH_SHADER_HANDLE
        shader_defs := []
        entry_point := "fragment"
        targets := [some
          { format := TextureFormat.bevy_default
            blend := none
            write_mask := ColorWrites.ALL }] } ∧
    video_glitch_pipeline_descriptor.primitive = PrimitiveState.wgpuDefault ∧
    video_glitch_pipeline_descriptor.depth_stencil = none ∧
    video_glitch_pipeline_descriptor.multisample = MultisampleState.wgpuDefault ∧
    video_glitch_pipeline_descriptor.push_constant_ranges = [] ∧
    ∀ (w : RenderWorld) (vt : ViewTarget),
      (VideoGlitchNode.run w vt).2.1.countP RenderEvent.isQueueRenderPipeline = 0 ∧
      RenderEvent.getRenderPipeline w.video_glitch_pipeline.pipeline_id
          (w.pipeline_cache_compiled w.video_glitch_pipeline.pipeline_id)
        ∈ (VideoGlitchNode.run w vt).2.1 := by
  refine ⟨rfl, rfl, rfl, rfl, rfl, rfl, rfl, rfl, rfl, rfl, fun w vt => ?_⟩
  unfold VideoGlitchNode.run
  rcases hb : w.pipeline_cache_compiled w.video_glitch_pipeline.pipeline_id <;>
    rcases hsb : w.settings_binding_available <;>
    rcases hgb : w.globals_binding_available <;>
    simp [hb, hsb, hgb, List.countP_cons, RenderEvent.isQueueRenderPipeline]

/-- C10: with no render sub-app, `build` still registers the settings
type, the two extraction/uniform plugins and the internal shader asset
on the main app but adds no graph nodes or edges, and `finish` leaves
the app untouched; neither function panics. -/
theorem videoGlitchPlugin_no_render_app (app : App)
    (h : app.render_app = none) :
    (VideoGlitchPlugin.build app).render_app = none ∧
    (VideoGlitchPlugin.build app).main.registered_types =
      app.main.registered_types ++ ["VideoGlitchSettings"] ∧
    (VideoGlitchPlugin.build app).main.plugins =
      app.main.plugins ++
        [ "ExtractComponentPlugin<VideoGlitchSettings>",
          "UniformComponentPlugin<VideoGlitchSettings>" ] ∧
    (VideoGlitchPlugin.build app).main.assets_loaded =
      app.main.assets_loaded ++ [VIDEO_GLITCH_SHADER_HANDLE] ∧
    VideoGlitchPlugin.finish app = app := by
  unfold VideoGlitchPlugin.build VideoGlitchPlugin.finish
  rw [h]
  exact ⟨rfl, rfl, rfl, rfl, rfl⟩

/-- Witness for C10 at a concrete app with no render sub-app. -/
theorem videoGlitchPlugin_no_render_app_witness :
    (VideoGlitchPlugin.build sampleAppNoRender).render_app = none ∧
    VideoGlitchPlugin.finish sampleAppNoRender = sampleAppNoRender :=
  ⟨(videoGlitchPlugin_no_render_app sampleAppNoRender rfl).1,
   (videoGlitchPlugin_no_render_app sampleAppNoRender rfl).2.2.2.2⟩
